import Mathlib

/-!
# HelloOpenGL: the `Shader` helper and the two entry points

A shallow embedding of `src/HelloOpenGL/Shader.cpp`, `src/HelloOpenGL/main.cpp` and
`src/HelloOpenGL/hellowindow.cpp`.

The program is a straight line of calls into the OpenGL driver and the GLFW windowing
library.  Both are external, so the embedding treats them as the environment:

* every call the program issues is appended, with its arguments, to `World.calls`;
* every value the environment hands back (a handle, a status, a diagnostic text, a
  key state) is an input of the embedding, passed to the wrapper of the call that
  receives it as its last argument `reply`;
* the render loop is bounded by a fuel argument; a run that is still looping when the
  fuel is spent yields `none`;
* text written to `std::cout` is appended to `World.out`, one `Chunk` per `<<`; the
  run-time C strings among them are kept as byte sequences (`CString`).

`std::ifstream` failures are C++ exceptions; they are modelled by the `Except` layer of
`Exec`, so that "the constructor does not throw" is a theorem and not a typing fact.
-/

namespace HelloOpenGL

/-! ## The environment: driver calls, console output, files -/

/-- Symbolic names of the OpenGL and GLFW enumerants the sources use (their numeric
values live in `glad.h` and `glfw3.h`, which are not part of the repository). -/
inductive GLenum
  | GL_VERTEX_SHADER
  | GL_FRAGMENT_SHADER
  | GL_COMPILE_STATUS
  | GL_LINK_STATUS
  | GL_ARRAY_BUFFER
  | GL_STATIC_DRAW
  | GL_FLOAT
  | GL_TRIANGLES
  | GL_COLOR_BUFFER_BIT
  | GLFW_CONTEXT_VERSION_MAJOR
  | GLFW_CONTEXT_VERSION_MINOR
  | GLFW_OPENGL_PROFILE
  | GLFW_OPENGL_CORE_PROFILE
  | GLFW_KEY_ESCAPE
  deriving DecidableEq, Repr

/-- One call into the driver or the windowing library, with the arguments the program
passes.  `GLfloat` arguments are recorded as the rational value of the source literal;
the program performs no arithmetic on them. -/
inductive Call
  | glCreateShader (type : GLenum)
  | glShaderSource (shader : Nat) (source : String)
  | glCompileShader (shader : Nat)
  | glGetShaderiv (shader : Nat) (pname : GLenum)
  | glGetShaderInfoLog (shader : Nat) (maxLength : Nat)
  | glCreateProgram
  | glAttachShader (program shader : Nat)
  | glLinkProgram (program : Nat)
  | glGetProgramiv (program : Nat) (pname : GLenum)
  | glGetProgramInfoLog (program : Nat) (maxLength : Nat)
  | glDeleteShader (shader : Nat)
  | glDeleteProgram (program : Nat)
  | glUseProgram (program : Nat)
  | glGetUniformLocation (program : Nat) (name : String)
  | glUniform1i (location : Int) (v0 : Int)
  | glUniform1f (location : Int) (v0 : ℚ)
  | glViewport (x y width height : Int)
  | glGenVertexArrays (n : Nat)
  | glGenBuffers (n : Nat)
  | glBindVertexArray (array : Nat)
  | glBindBuffer (target : GLenum) (buffer : Nat)
  | glBufferData (target : GLenum) (size : Nat) (data : List ℚ) (usage : GLenum)
  | glVertexAttribPointer (index size : Nat) (type : GLenum) (normalized : Bool)
      (stride pointer : Nat)
  | glEnableVertexAttribArray (index : Nat)
  | glClearColor (red green blue alpha : ℚ)
  | glClear (mask : GLenum)
  | glDrawArrays (mode : GLenum) (first count : Nat)
  | glDeleteVertexArrays (n : Nat) (arrays : List Nat)
  | glDeleteBuffers (n : Nat) (buffers : List Nat)
  | glfwInit
  | glfwWindowHint (hint : GLenum) (value : Int ⊕ GLenum)
  | glfwCreateWindow (width height : Int) (title : String)
  | glfwTerminate
  | glfwMakeContextCurrent (window : Nat)
  | gladLoadGLLoader
  | glfwSetFramebufferSizeCallback (window : Nat)
  | glfwWindowShouldClose (window : Nat)
  | glfwGetKey (window : Nat) (key : GLenum)
  | glfwSetWindowShouldClose (window : Nat) (value : Bool)
  | glfwPollEvents
  | glfwSwapBuffers (window : Nat)
  deriving DecidableEq

/-- A run-time C string: its chars, one byte each, without the terminating NUL. -/
abbrev CString := List (Fin 256)

/-- One item written to `std::cout`: a string literal of the source, a run-time
C string (the `infolog` buffer), or `std::endl`. -/
inductive Chunk
  | lit (s : String)
  | str (s : CString)
  | endl
  deriving DecidableEq

/-- What the program has done so far: the calls it issued and the console output,
together with the close flag GLFW keeps for the one window of the program (set by
`glfwSetWindowShouldClose` and by a close request, read by `glfwWindowShouldClose`). -/
structure World where
  calls : List Call
  out : List Chunk
  shouldClose : Bool
  deriving DecidableEq

/-- The state before the first statement. -/
def World.init : World := ⟨[], [], false⟩

/-- The exception `std::ifstream::failure`. -/
inductive IosFailure
  | failure
  deriving DecidableEq

/-- A statement sequence: it transforms the world and either yields a value or leaves
by a thrown `std::ifstream::failure`. -/
def Exec (α : Type) : Type := World → Except IosFailure α × World

/-- Normal completion with a value. -/
def Exec.pure {α : Type} (a : α) : Exec α := fun w => (.ok a, w)

/-- Sequencing: a throw in the first part skips the rest. -/
def Exec.bind {α β : Type} (x : Exec α) (f : α → Exec β) : Exec β := fun w =>
  match x w with
  | (.ok a, w1) => f a w1
  | (.error e, w1) => (.error e, w1)

instance : Monad Exec where
  pure := Exec.pure
  bind := Exec.bind

/-- The statement `throw e`. -/
def Exec.throw {α : Type} (e : IosFailure) : Exec α := fun w => (.error e, w)

/-- The statement `try { body } catch (std::ifstream::failure e) { handler }`. -/
def Exec.tryCatch {α : Type} (body : Exec α) (handler : IosFailure → Exec α) : Exec α :=
  fun w =>
    match body w with
    | (.ok a, w1) => (.ok a, w1)
    | (.error e, w1) => handler e w1

/-- Record a call that returns nothing. -/
def call (c : Call) : Exec Unit :=
  fun w => (.ok (), ⟨w.calls ++ [c], w.out, w.shouldClose⟩)

/-- Record a call and hand back the value the environment replied with. -/
def callWith {α : Type} (c : Call) (reply : α) : Exec α :=
  fun w => (.ok reply, ⟨w.calls ++ [c], w.out, w.shouldClose⟩)

/-- One statement `std::cout << c₁ << c₂ << ...`. -/
def cout (cs : List Chunk) : Exec Unit :=
  fun w => (.ok (), ⟨w.calls, w.out ++ cs, w.shouldClose⟩)

/-- What a path names on disk, as far as `std::ifstream` can tell: `open` fails, or
`open` succeeds, streaming the file's buffer yields `text`, and `close` succeeds or
fails (`closes`). -/
inductive FileState
  | unopenable
  | readable (text : String) (closes : Bool)
  deriving DecidableEq

/-- The files on disk. -/
abbrev FileSystem := String → FileState

/-- The call `file.open(path)` on a stream whose exception mask is `failbit | badbit`
(lines 10-11): a failed open sets `failbit`, which throws. -/
def ifstream.open (fs : FileSystem) (path : String) : Exec FileState :=
  match fs path with
  | .unopenable => Exec.throw .failure
  | .readable text closes => pure (.readable text closes)

/-- The text `stream << file.rdbuf(); ... stream.str()` yields.  A failure while
copying sets the state of the `std::stringstream`, whose exception mask is empty, so
this step never throws. -/
def ifstream.rdbuf : FileState → String
  | .unopenable => ""
  | .readable text _ => text

/-- The call `file.close()`: a failed close sets `failbit`, which throws. -/
def ifstream.close : FileState → Exec Unit
  | .readable _ true => pure ()
  | _ => Exec.throw .failure

/-! ## Wrappers of the driver calls used by `Shader.cpp` -/

/-- The value `GL_FALSE`. -/
def GL_FALSE : Int := 0

/-- The value `GL_TRUE`. -/
def GL_TRUE : Int := 1

def glCreateShader (type : GLenum) (reply : Nat) : Exec Nat :=
  callWith (.glCreateShader type) reply

/-- The call `glShaderSource(shader, 1, &source, NULL)`. -/
def glShaderSource (shader : Nat) (source : String) : Exec Unit :=
  call (.glShaderSource shader source)

def glCompileShader (shader : Nat) : Exec Unit :=
  call (.glCompileShader shader)

/-- The call `glGetShaderiv(shader, pname, &params)`; `reply` is the value written. -/
def glGetShaderiv (shader : Nat) (pname : GLenum) (reply : Int) : Exec Int :=
  callWith (.glGetShaderiv shader pname) reply

/-- What an info-log query leaves in `char infoLog[maxLength]`, read back as a C
string by `std::cout << infoLog`: the driver writes at most `maxLength` chars including
the terminating NUL, so the first `maxLength - 1` chars of its diagnostic `log`, and
the read stops at the first NUL. -/
def infoLogBuffer (maxLength : Nat) (log : CString) : CString :=
  (log.take (maxLength - 1)).takeWhile fun c => decide (c ≠ 0)

/-- The call `glGetShaderInfoLog(shader, maxLength, NULL, infoLog)`; `reply` is the
driver's full diagnostic for the shader. -/
def glGetShaderInfoLog (shader : Nat) (maxLength : Nat) (reply : CString) : Exec CString :=
  callWith (.glGetShaderInfoLog shader maxLength) (infoLogBuffer maxLength reply)

def glCreateProgram (reply : Nat) : Exec Nat :=
  callWith .glCreateProgram reply

def glAttachShader (program shader : Nat) : Exec Unit :=
  call (.glAttachShader program shader)

def glLinkProgram (program : Nat) : Exec Unit :=
  call (.glLinkProgram program)

/-- The call `glGetProgramiv(program, pname, &params)`; `reply` is the value written. -/
def glGetProgramiv (program : Nat) (pname : GLenum) (reply : Int) : Exec Int :=
  callWith (.glGetProgramiv program pname) reply

/-- The call `glGetProgramInfoLog(program, maxLength, NULL, infoLog)`; `reply` is the
driver's full diagnostic for the program. -/
def glGetProgramInfoLog (program : Nat) (maxLength : Nat) (reply : CString) : Exec CString :=
  callWith (.glGetProgramInfoLog program maxLength) (infoLogBuffer maxLength reply)

def glDeleteShader (shader : Nat) : Exec Unit :=
  call (.glDeleteShader shader)

def glDeleteProgram (program : Nat) : Exec Unit :=
  call (.glDeleteProgram program)

def glUseProgram (program : Nat) : Exec Unit :=
  call (.glUseProgram program)

def glGetUniformLocation (program : Nat) (name : String) (reply : Int) : Exec Int :=
  callWith (.glGetUniformLocation program name) reply

def glUniform1i (location : Int) (v0 : Int) : Exec Unit :=
  call (.glUniform1i location v0)

def glUniform1f (location : Int) (v0 : ℚ) : Exec Unit :=
  call (.glUniform1f location v0)

/-! ## `Shader.cpp` -/

/-- The class `Shader` (declared in `Shader.h`): its one data member. -/
structure Shader where
  ID : Nat
  deriving DecidableEq

/-- What the driver answers during one run of the constructor, in call order. -/
structure ShaderReplies where
  /-- returned by `glCreateShader(GL_VERTEX_SHADER)` -/
  vertex : Nat
  /-- written by `glGetShaderiv(vertex, GL_COMPILE_STATUS, &success)` -/
  vertexCompileStatus : Int
  /-- the driver's full diagnostic for the vertex stage, as the chars of a C string -/
  vertexInfoLog : CString
  /-- returned by `glCreateShader(GL_FRAGMENT_SHADER)` -/
  fragment : Nat
  /-- written by `glGetShaderiv(fragment, GL_COMPILE_STATUS, &success)` -/
  fragmentCompileStatus : Int
  /-- the driver's full diagnostic for the fragment stage, as the chars of a C string -/
  fragmentInfoLog : CString
  /-- returned by `glCreateProgram()` -/
  program : Nat
  /-- written by `glGetProgramiv(ID, GL_LINK_STATUS, &success)` -/
  linkStatus : Int
  /-- the driver's full diagnostic for the program, as the chars of a C string -/
  programInfoLog : CString

/-- The constructor `Shader::Shader(vertexPath, fragmentPath)`, lines 3-72.  The `try`
block returns the pair `(vertexCode, fragmentCode)` it assigns in lines 25-26; when it
is left by a throw both locals keep their initial value, the empty string. -/
def Shader.ctor (fs : FileSystem) (gl : ShaderReplies) (vertexPath fragmentPath : String) :
    Exec Shader := do
  let code ← Exec.tryCatch
    (do
      let vertexShaderFile ← ifstream.open fs vertexPath
      let fragmentShaderFile ← ifstream.open fs fragmentPath
      let vertexShaderStream := ifstream.rdbuf vertexShaderFile
      let fragmentShaderStream := ifstream.rdbuf fragmentShaderFile
      ifstream.close vertexShaderFile
      ifstream.close fragmentShaderFile
      pure (vertexShaderStream, fragmentShaderStream))
    (fun _ => do
      cout [.lit "ERROR::SHADER::FILE_NOT_SUCCESSFULLY_READ", .endl]
      pure ("", ""))
  let vShaderCode := code.1
  let fShaderCode := code.2
  let vertex ← glCreateShader .GL_VERTEX_SHADER gl.vertex
  glShaderSource vertex vShaderCode
  glCompileShader vertex
  let success ← glGetShaderiv vertex .GL_COMPILE_STATUS gl.vertexCompileStatus
  if success = 0 then
    let infolog ← glGetShaderInfoLog vertex 512 gl.vertexInfoLog
    cout [.lit "ERROR::SHADER::VERTEX::COMPILATION_FAILED\n", .str infolog, .endl]
  let fragment ← glCreateShader .GL_FRAGMENT_SHADER gl.fragment
  glShaderSource fragment fShaderCode
  glCompileShader fragment
  let success ← glGetShaderiv fragment .GL_COMPILE_STATUS gl.fragmentCompileStatus
  if success = 0 then
    let infolog ← glGetShaderInfoLog fragment 512 gl.fragmentInfoLog
    cout [.lit "ERROR::SHADER::FRAGMENT::COMPILATION_FAILED\n", .str infolog, .endl]
  let ID ← glCreateProgram gl.program
  glAttachShader ID vertex
  glAttachShader ID fragment
  glLinkProgram ID
  let success ← glGetProgramiv ID .GL_LINK_STATUS gl.linkStatus
  if success = 0 then
    let infolog ← glGetProgramInfoLog ID 512 gl.programInfoLog
    cout [.lit "ERROR::SHADER::PROGRAM::LINKING_FAILED\n", .str infolog, .endl]
  glDeleteShader vertex
  glDeleteShader fragment
  pure { ID := ID }

/-- The method `Shader::use()`. -/
def Shader.use (self : Shader) : Exec Unit :=
  glUseProgram self.ID

/-- The method `Shader::setBool(name, value)`; `reply` is what the driver returns from
`glGetUniformLocation`, and `(int)value` is `1` for `true` and `0` for `false`. -/
def Shader.setBool (self : Shader) (name : String) (value : Bool) (reply : Int) : Exec Unit := do
  let location ← glGetUniformLocation self.ID name reply
  glUniform1i location (if value then 1 else 0)

/-- The method `Shader::setInt(name, value)`. -/
def Shader.setInt (self : Shader) (name : String) (value : Int) (reply : Int) : Exec Unit := do
  let location ← glGetUniformLocation self.ID name reply
  glUniform1i location value

/-- The method `Shader::setFloat(name, value)`. -/
def Shader.setFloat (self : Shader) (name : String) (value : ℚ) (reply : Int) : Exec Unit := do
  let location ← glGetUniformLocation self.ID name reply
  glUniform1f location value

/-! ## Wrappers of the calls used by the entry points -/

def glViewport (x y width height : Int) : Exec Unit :=
  call (.glViewport x y width height)

/-- The call `glGenVertexArrays(n, arrays)`; `reply` is the names the driver writes. -/
def glGenVertexArrays (n : Nat) (reply : Fin n → Nat) : Exec (Fin n → Nat) :=
  callWith (.glGenVertexArrays n) reply

/-- The call `glGenBuffers(n, buffers)`; `reply` is the names the driver writes. -/
def glGenBuffers (n : Nat) (reply : Fin n → Nat) : Exec (Fin n → Nat) :=
  callWith (.glGenBuffers n) reply

def glBindVertexArray (array : Nat) : Exec Unit :=
  call (.glBindVertexArray array)

def glBindBuffer (target : GLenum) (buffer : Nat) : Exec Unit :=
  call (.glBindBuffer target buffer)

def glBufferData (target : GLenum) (size : Nat) (data : List ℚ) (usage : GLenum) : Exec Unit :=
  call (.glBufferData target size data usage)

def glVertexAttribPointer (index size : Nat) (type : GLenum) (normalized : Bool)
    (stride pointer : Nat) : Exec Unit :=
  call (.glVertexAttribPointer index size type normalized stride pointer)

def glEnableVertexAttribArray (index : Nat) : Exec Unit :=
  call (.glEnableVertexAttribArray index)

def glClearColor (red green blue alpha : ℚ) : Exec Unit :=
  call (.glClearColor red green blue alpha)

def glClear (mask : GLenum) : Exec Unit :=
  call (.glClear mask)

def glDrawArrays (mode : GLenum) (first count : Nat) : Exec Unit :=
  call (.glDrawArrays mode first count)

/-- The call `glDeleteVertexArrays(n, arrays)`. -/
def glDeleteVertexArrays (n : Nat) (arrays : Fin n → Nat) : Exec Unit :=
  call (.glDeleteVertexArrays n (List.ofFn arrays))

/-- The call `glDeleteBuffers(n, buffers)`. -/
def glDeleteBuffers (n : Nat) (buffers : Fin n → Nat) : Exec Unit :=
  call (.glDeleteBuffers n (List.ofFn buffers))

def glfwInit : Exec Unit :=
  call .glfwInit

def glfwWindowHint (hint : GLenum) (value : Int ⊕ GLenum) : Exec Unit :=
  call (.glfwWindowHint hint value)

/-- The call `glfwCreateWindow(width, height, title, NULL, NULL)`; `reply` is the
window it returns, `none` for `NULL`.  A new window has its close flag cleared. -/
def glfwCreateWindow (width height : Int) (title : String) (reply : Option Nat) :
    Exec (Option Nat) :=
  fun w => (.ok reply, ⟨w.calls ++ [.glfwCreateWindow width height title], w.out, false⟩)

def glfwTerminate : Exec Unit :=
  call .glfwTerminate

def glfwMakeContextCurrent (window : Nat) : Exec Unit :=
  call (.glfwMakeContextCurrent window)

/-- The call `gladLoadGLLoader((GLADloadproc)glfwGetProcAddress)`; `reply` tells
whether it returned non-zero. -/
def gladLoadGLLoader (reply : Bool) : Exec Bool :=
  callWith .gladLoadGLLoader reply

def glfwSetFramebufferSizeCallback (window : Nat) : Exec Unit :=
  call (.glfwSetFramebufferSizeCallback window)

/-- The call `glfwWindowShouldClose(window)`: it reads the close flag. -/
def glfwWindowShouldClose (window : Nat) : Exec Bool :=
  fun w => (.ok w.shouldClose, ⟨w.calls ++ [.glfwWindowShouldClose window], w.out, w.shouldClose⟩)

/-- The call `glfwGetKey(window, key)`; `reply` tells whether it returned
`GLFW_PRESS`. -/
def glfwGetKey (window : Nat) (key : GLenum) (reply : Bool) : Exec Bool :=
  callWith (.glfwGetKey window key) reply

/-- The call `glfwSetWindowShouldClose(window, value)`: it writes the close flag. -/
def glfwSetWindowShouldClose (window : Nat) (value : Bool) : Exec Unit :=
  fun w => (.ok (), ⟨w.calls ++ [.glfwSetWindowShouldClose window value], w.out, value⟩)

def glfwSwapBuffers (window : Nat) : Exec Unit :=
  call (.glfwSwapBuffers window)

/-- What the windowing system delivers during one iteration of the render loop. -/
structure Frame where
  /-- whether `glfwGetKey(window, GLFW_KEY_ESCAPE)` returns `GLFW_PRESS` -/
  escape : Bool
  /-- the framebuffer-size events `glfwPollEvents` dispatches, oldest first -/
  resizes : List (Int × Int)
  /-- whether `glfwPollEvents` delivers a close request, which sets the close flag -/
  closeRequested : Bool

/-! ## The two callbacks (identical in `main.cpp` and `hellowindow.cpp`) -/

/-- The callback `framebuffer_size_callback(window, width, height)`. -/
def framebuffer_size_callback (_window : Nat) (width height : Int) : Exec Unit :=
  glViewport 0 0 width height

/-- The function `processInput(window)`; `escape` is the reply of `glfwGetKey`. -/
def processInput (window : Nat) (escape : Bool) : Exec Unit := do
  let pressed ← glfwGetKey window .GLFW_KEY_ESCAPE escape
  if pressed then
    glfwSetWindowShouldClose window true

/-- GLFW invoking the registered framebuffer-size callback once per resize event. -/
def dispatchResizes (window : Nat) : List (Int × Int) → Exec Unit
  | [] => pure ()
  | (width, height) :: rest => do
    framebuffer_size_callback window width height
    dispatchResizes window rest

/-- The call `glfwPollEvents()`: it runs the callback for the pending resize events
and records a pending close request in the close flag. -/
def glfwPollEvents (window : Nat) (events : Frame) : Exec Unit := do
  call .glfwPollEvents
  dispatchResizes window events.resizes
  if events.closeRequested then
    fun w => (.ok (), ⟨w.calls, w.out, true⟩)

/-! ## `main.cpp` -/

/-- The value `sizeof(float)`. -/
def sizeof_float : Nat := 4

namespace Main

/-- What the environment answers during one run of `main` in `main.cpp`. -/
structure Env where
  /-- returned by `glfwCreateWindow`, `none` for `NULL` -/
  window : Option Nat
  /-- whether `gladLoadGLLoader` returns non-zero -/
  gladLoaded : Bool
  /-- the files on disk -/
  files : FileSystem
  /-- the driver's answers to the `Shader` constructor -/
  shader : ShaderReplies
  /-- written by `glGenVertexArrays(1, &vao)` -/
  vao : Nat
  /-- written by `glGenBuffers(1, &vbo)` -/
  vbo : Nat
  /-- returned by `glGetUniformLocation(ID, "offset")` in iteration `i` -/
  offsetLocation : Nat → Int
  /-- what the windowing system delivers in iteration `i` -/
  frame : Nat → Frame

/-- The array `vertices`, lines 57-63. -/
def vertices : List ℚ :=
  [ 0.5, -0.5, 0.0, 1.0, 0.0, 0.0,
    -0.5, -0.5, 0.0, 0.0, 1.0, 0.0,
    0.0, 0.5, 0.0, 0.0, 0.0, 1.0 ]

/-- The render loop, lines 87-103, started at iteration `i`: `true` when the loop
condition ended it, `false` when the fuel is spent first. -/
def renderLoop (env : Env) (window : Nat) (shader : Shader) (vao : Nat) :
    Nat → Nat → Exec Bool
  | 0, _ => pure false
  | fuel + 1, i => do
    let close ← glfwWindowShouldClose window
    if close then
      pure true
    else do
      processInput window (env.frame i).escape
      glClearColor 0.0 0.0 0.0 1.0
      glClear .GL_COLOR_BUFFER_BIT
      shader.use
      shader.setFloat "offset" 0.3 (env.offsetLocation i)
      glBindVertexArray vao
      glDrawArrays .GL_TRIANGLES 0 3
      glfwPollEvents window (env.frame i)
      glfwSwapBuffers window
      renderLoop env window shader vao fuel (i + 1)

/-- The function `main` of `main.cpp`: the exit code, or `none` when the render loop
is still running after `fuel` iterations. -/
def main (env : Env) (fuel : Nat) : Exec (Option Int) := do
  glfwInit
  glfwWindowHint .GLFW_CONTEXT_VERSION_MAJOR (.inl 3)
  glfwWindowHint .GLFW_CONTEXT_VERSION_MINOR (.inl 3)
  glfwWindowHint .GLFW_OPENGL_PROFILE (.inr .GLFW_OPENGL_CORE_PROFILE)
  let created ← glfwCreateWindow 800 600 "LearnOpenGL" env.window
  match created with
  | none => do
    cout [.lit "Failed to create GLFW window", .endl]
    glfwTerminate
    pure (some (-1))
  | some window => do
    glfwMakeContextCurrent window
    let loaded ← gladLoadGLLoader env.gladLoaded
    if !loaded then do
      cout [.lit "Failed to initialize GLAD", .endl]
      pure (some (-1))
    else do
      glViewport 0 0 800 600
      glfwSetFramebufferSizeCallback window
      let shader ← Shader.ctor env.files env.shader "vshader.vert" "fshader.frag"
      let vao ← glGenVertexArrays 1 (fun _ => env.vao)
      let vbo ← glGenBuffers 1 (fun _ => env.vbo)
      glBindVertexArray (vao 0)
      glBindBuffer .GL_ARRAY_BUFFER (vbo 0)
      glBufferData .GL_ARRAY_BUFFER (vertices.length * sizeof_float) vertices .GL_STATIC_DRAW
      glVertexAttribPointer 0 3 .GL_FLOAT false (6 * sizeof_float) 0
      glEnableVertexAttribArray 0
      glVertexAttribPointer 1 3 .GL_FLOAT false (6 * sizeof_float) (3 * sizeof_float)
      glEnableVertexAttribArray 1
      glBindBuffer .GL_ARRAY_BUFFER 0
      glBindVertexArray 0
      let exited ← renderLoop env window shader (vao 0) fuel 0
      if exited then do
        glDeleteVertexArrays 1 vao
        glDeleteBuffers 1 vbo
        glfwTerminate
        pure (some 0)
      else
        pure none

end Main

/-! ## `hellowindow.cpp` -/

namespace HelloWindow

/-- The C string `vertexShaderSource`, lines 21-26 (it ends at the first NUL). -/
def vertexShaderSource : String :=
  "#version 330 core\n" ++
  "layout (location = 0) in vec3 aPos;\n" ++
  "void main()\n" ++
  "\x7b\n" ++
  "\tgl_Position = vec4(aPos.x, aPos.y, aPos.z, 1.0);\n" ++
  "\x7d"

/-- The C string `fragmentShaderSource`, lines 29-34. -/
def fragmentShaderSource : String :=
  "#version 330 core\n" ++
  "out vec4 FragColor;\n" ++
  "void main()\n" ++
  "\x7b\n" ++
  "\tFragColor = vec4(1.0f, 0.5f, 0.2f, 1.0f);\n" ++
  "\x7d"

/-- The C string `altFragmentShaderSource`, lines 36-41. -/
def altFragmentShaderSource : String :=
  "#version 330 core\n" ++
  "out vec4 FragColor;\n" ++
  "void main()\n" ++
  "\x7b\n" ++
  "\tFragColor = vec4(1.0f, 0.9f, 0.1f, 1.0f);\n" ++
  "\x7d"

/-- What the environment answers during one run of `main` in `hellowindow.cpp`. -/
structure Env where
  /-- returned by `glfwCreateWindow`, `none` for `NULL` -/
  window : Option Nat
  /-- whether `gladLoadGLLoader` returns non-zero -/
  gladLoaded : Bool
  /-- returned by the first `glCreateShader(GL_VERTEX_SHADER)` -/
  vertexShader : Nat
  /-- written by `glGetShaderiv(vertexShader, GL_COMPILE_STATUS, &success)` -/
  vertexCompileStatus : Int
  /-- the driver's full diagnostic for the vertex stage, as the chars of a C string -/
  vertexInfoLog : CString
  /-- returned by the first `glCreateShader(GL_FRAGMENT_SHADER)` -/
  fragmentShader : Nat
  /-- returned by the second `glCreateShader(GL_FRAGMENT_SHADER)` -/
  altFragmentShader : Nat
  /-- returned by the first `glCreateProgram()` -/
  firstShaderProgram : Nat
  /-- returned by the second `glCreateProgram()` -/
  secondShaderProgram : Nat
  /-- written by `glGenVertexArrays(2, vaos)` -/
  vaos : Fin 2 → Nat
  /-- written by `glGenBuffers(2, vbos)` -/
  vbos : Fin 2 → Nat
  /-- what the windowing system delivers in iteration `i` -/
  frame : Nat → Frame

/-- The array `first_triangle`, lines 124-128. -/
def first_triangle : List ℚ :=
  [ 0.5, 0.5, 0.0,
    1.0, 0.0, 0.0,
    0.0, 0.0, 0.0 ]

/-- The array `second_triangle`, lines 130-134. -/
def second_triangle : List ℚ :=
  [ -0.5, 0.5, 0.0,
    -1.0, 0.0, 0.0,
    0.0, 0.0, 0.0 ]

/-- The render loop, lines 158-176, started at iteration `i`: `true` when the loop
condition ended it, `false` when the fuel is spent first. -/
def renderLoop (env : Env) (window firstShaderProgram secondShaderProgram : Nat)
    (vaos : Fin 2 → Nat) : Nat → Nat → Exec Bool
  | 0, _ => pure false
  | fuel + 1, i => do
    let close ← glfwWindowShouldClose window
    if close then
      pure true
    else do
      processInput window (env.frame i).escape
      glClearColor 0.0 0.0 0.0 1.0
      glClear .GL_COLOR_BUFFER_BIT
      glUseProgram firstShaderProgram
      glBindVertexArray (vaos 0)
      glDrawArrays .GL_TRIANGLES 0 3
      glUseProgram secondShaderProgram
      glBindVertexArray (vaos 1)
      glDrawArrays .GL_TRIANGLES 0 3
      glfwPollEvents window (env.frame i)
      glfwSwapBuffers window
      renderLoop env window firstShaderProgram secondShaderProgram vaos fuel (i + 1)

/-- The function `main` of `hellowindow.cpp`: the exit code, or `none` when the render
loop is still running after `fuel` iterations. -/
def main (env : Env) (fuel : Nat) : Exec (Option Int) := do
  glfwInit
  glfwWindowHint .GLFW_CONTEXT_VERSION_MAJOR (.inl 3)
  glfwWindowHint .GLFW_CONTEXT_VERSION_MINOR (.inl 3)
  glfwWindowHint .GLFW_OPENGL_PROFILE (.inr .GLFW_OPENGL_CORE_PROFILE)
  let created ← glfwCreateWindow 800 600 "LearnOpenGL" env.window
  match created with
  | none => do
    cout [.lit "Failed to create GLFW window", .endl]
    glfwTerminate
    pure (some (-1))
  | some window => do
    glfwMakeContextCurrent window
    let loaded ← gladLoadGLLoader env.gladLoaded
    if !loaded then do
      cout [.lit "Failed to initialize GLAD", .endl]
      pure (some (-1))
    else do
      glViewport 0 0 800 600
      glfwSetFramebufferSizeCallback window
      let vertexShader ← glCreateShader .GL_VERTEX_SHADER env.vertexShader
      glShaderSource vertexShader vertexShaderSource
      glCompileShader vertexShader
      let success ← glGetShaderiv vertexShader .GL_COMPILE_STATUS env.vertexCompileStatus
      if success = 0 then
        let infolog ← glGetShaderInfoLog vertexShader 512 env.vertexInfoLog
        cout [.lit "ERROR::SHADER::VERTEX::COMPILATION_FAILED\n", .str infolog, .endl]
      let fragmentShader ← glCreateShader .GL_FRAGMENT_SHADER env.fragmentShader
      glShaderSource fragmentShader fragmentShaderSource
      glCompileShader fragmentShader
      let altFragmentShader ← glCreateShader .GL_FRAGMENT_SHADER env.altFragmentShader
      glShaderSource altFragmentShader altFragmentShaderSource
      glCompileShader altFragmentShader
      let firstShaderProgram ← glCreateProgram env.firstShaderProgram
      glAttachShader firstShaderProgram vertexShader
      glAttachShader firstShaderProgram fragmentShader
      glLinkProgram firstShaderProgram
      let secondShaderProgram ← glCreateProgram env.secondShaderProgram
      glAttachShader secondShaderProgram vertexShader
      glAttachShader secondShaderProgram altFragmentShader
      glLinkProgram secondShaderProgram
      glDeleteShader vertexShader
      glDeleteShader fragmentShader
      glDeleteShader altFragmentShader
      let vaos ← glGenVertexArrays 2 env.vaos
      let vbos ← glGenBuffers 2 env.vbos
      glBindVertexArray (vaos 0)
      glBindBuffer .GL_ARRAY_BUFFER (vbos 0)
      glBufferData .GL_ARRAY_BUFFER (first_triangle.length * sizeof_float) first_triangle
        .GL_STATIC_DRAW
      glVertexAttribPointer 0 3 .GL_FLOAT false (3 * sizeof_float) 0
      glEnableVertexAttribArray 0
      glBindVertexArray (vaos 1)
      glBindBuffer .GL_ARRAY_BUFFER (vbos 1)
      glBufferData .GL_ARRAY_BUFFER (second_triangle.length * sizeof_float) second_triangle
        .GL_STATIC_DRAW
      glVertexAttribPointer 0 3 .GL_FLOAT false (3 * sizeof_float) 0
      glEnableVertexAttribArray 0
      glBindBuffer .GL_ARRAY_BUFFER 0
      glBindVertexArray 0
      let exited ← renderLoop env window firstShaderProgram secondShaderProgram vaos fuel 0
      if exited then do
        glDeleteVertexArrays 2 vaos
        glDeleteBuffers 2 vbos
        glDeleteProgram firstShaderProgram
        glDeleteProgram secondShaderProgram
        glfwTerminate
        pure (some 0)
      else
        pure none

end HelloWindow

/-! ## Vertex fetch -/

/-- Whether a call is `glLinkProgram`. -/
def Call.isLink : Call → Bool
  | .glLinkProgram _ => true
  | _ => false

/-- Whether a call is `glShaderSource`. -/
def Call.isShaderSource : Call → Bool
  | .glShaderSource _ _ => true
  | _ => false

/-- Whether a call releases driver objects. -/
def Call.isDelete : Call → Bool
  | .glDeleteShader _ => true
  | .glDeleteProgram _ => true
  | .glDeleteVertexArrays _ _ => true
  | .glDeleteBuffers _ _ => true
  | _ => false

/-- Whether a call is one an iteration of a render loop may issue, directly or through
`processInput` and the resize callback. -/
def Call.isFrameCall : Call → Bool
  | .glfwWindowShouldClose _ => true
  | .glfwGetKey _ _ => true
  | .glfwSetWindowShouldClose _ _ => true
  | .glClearColor _ _ _ _ => true
  | .glClear _ => true
  | .glUseProgram _ => true
  | .glGetUniformLocation _ _ => true
  | .glUniform1f _ _ => true
  | .glBindVertexArray _ => true
  | .glDrawArrays mode first count => decide (mode = .GL_TRIANGLES ∧ first = 0 ∧ count = 3)
  | .glfwPollEvents => true
  | .glViewport _ _ _ _ => true
  | .glfwSwapBuffers _ => true
  | _ => false

/-- A statement sequence that completes normally from every state, writes nothing to
the console, and appends only calls satisfying `P`. -/
def Exec.Emits {α : Type} (P : Call → Prop) (x : Exec α) : Prop :=
  ∀ w, ∃ a calls flag, x w = (.ok a, ⟨w.calls ++ calls, w.out, flag⟩) ∧ ∀ c ∈ calls, P c

/-- The two source texts the `try` block of the constructor obtains, `none` when it is
left by a throw. -/
def sources (fs : FileSystem) (vertexPath fragmentPath : String) : Option (String × String) :=
  match fs vertexPath, fs fragmentPath with
  | .readable vertexText true, .readable fragmentText true => some (vertexText, fragmentText)
  | _, _ => none

/-- The items of a block guarded by `if (!success)`. -/
def guarded {α : Type} (success : Int) (items : List α) : List α :=
  if success = 0 then items else []

/-- The calls of one run of the constructor on the source texts `v` and `f`. -/
def ctorCalls (gl : ShaderReplies) (v f : String) : List Call :=
  [.glCreateShader .GL_VERTEX_SHADER, .glShaderSource gl.vertex v, .glCompileShader gl.vertex,
    .glGetShaderiv gl.vertex .GL_COMPILE_STATUS]
  ++ guarded gl.vertexCompileStatus [.glGetShaderInfoLog gl.vertex 512]
  ++ [.glCreateShader .GL_FRAGMENT_SHADER, .glShaderSource gl.fragment f,
    .glCompileShader gl.fragment, .glGetShaderiv gl.fragment .GL_COMPILE_STATUS]
  ++ guarded gl.fragmentCompileStatus [.glGetShaderInfoLog gl.fragment 512]
  ++ [.glCreateProgram, .glAttachShader gl.program gl.vertex,
    .glAttachShader gl.program gl.fragment, .glLinkProgram gl.program,
    .glGetProgramiv gl.program .GL_LINK_STATUS]
  ++ guarded gl.linkStatus [.glGetProgramInfoLog gl.program 512]
  ++ [.glDeleteShader gl.vertex, .glDeleteShader gl.fragment]

/-- The console output of one run of the constructor. -/
def ctorOut (gl : ShaderReplies) (thrown : Bool) : List Chunk :=
  (if thrown then [.lit "ERROR::SHADER::FILE_NOT_SUCCESSFULLY_READ", .endl] else [])
  ++ guarded gl.vertexCompileStatus [.lit "ERROR::SHADER::VERTEX::COMPILATION_FAILED\n",
      .str (infoLogBuffer 512 gl.vertexInfoLog), .endl]
  ++ guarded gl.fragmentCompileStatus [.lit "ERROR::SHADER::FRAGMENT::COMPILATION_FAILED\n",
      .str (infoLogBuffer 512 gl.fragmentInfoLog), .endl]
  ++ guarded gl.linkStatus [.lit "ERROR::SHADER::PROGRAM::LINKING_FAILED\n",
      .str (infoLogBuffer 512 gl.programInfoLog), .endl]

/-- The calls of one run of the constructor from the initial state. -/
def Shader.trace (fs : FileSystem) (gl : ShaderReplies) (vertexPath fragmentPath : String) :
    List Call :=
  (Shader.ctor fs gl vertexPath fragmentPath World.init).2.calls

/-- The console output of one run of the constructor from the initial state. -/
def Shader.log (fs : FileSystem) (gl : ShaderReplies) (vertexPath fragmentPath : String) :
    List Chunk :=
  (Shader.ctor fs gl vertexPath fragmentPath World.init).2.out

/-- The calls `main` of `main.cpp` issues before its render loop, once the window
exists and the loader succeeded. -/
def Main.setupCalls (env : Main.Env) (window : Nat) : List Call :=
  [.glfwInit, .glfwWindowHint .GLFW_CONTEXT_VERSION_MAJOR (.inl 3),
    .glfwWindowHint .GLFW_CONTEXT_VERSION_MINOR (.inl 3),
    .glfwWindowHint .GLFW_OPENGL_PROFILE (.inr .GLFW_OPENGL_CORE_PROFILE),
    .glfwCreateWindow 800 600 "LearnOpenGL", .glfwMakeContextCurrent window,
    .gladLoadGLLoader, .glViewport 0 0 800 600, .glfwSetFramebufferSizeCallback window]
  ++ Shader.trace env.files env.shader "vshader.vert" "fshader.frag"
  ++ [.glGenVertexArrays 1, .glGenBuffers 1, .glBindVertexArray env.vao,
    .glBindBuffer .GL_ARRAY_BUFFER env.vbo,
    .glBufferData .GL_ARRAY_BUFFER (Main.vertices.length * sizeof_float) Main.vertices
      .GL_STATIC_DRAW,
    .glVertexAttribPointer 0 3 .GL_FLOAT false (6 * sizeof_float) 0,
    .glEnableVertexAttribArray 0,
    .glVertexAttribPointer 1 3 .GL_FLOAT false (6 * sizeof_float) (3 * sizeof_float),
    .glEnableVertexAttribArray 1, .glBindBuffer .GL_ARRAY_BUFFER 0, .glBindVertexArray 0]

/-- The calls `main` of `main.cpp` issues after its render loop. -/
def Main.cleanupCalls (env : Main.Env) : List Call :=
  [.glDeleteVertexArrays 1 [env.vao], .glDeleteBuffers 1 [env.vbo], .glfwTerminate]

/-- The calls `main` of `hellowindow.cpp` issues before its render loop, once the
window exists and the loader succeeded. -/
def HelloWindow.setupCalls (env : HelloWindow.Env) (window : Nat) : List Call :=
  [.glfwInit, .glfwWindowHint .GLFW_CONTEXT_VERSION_MAJOR (.inl 3),
    .glfwWindowHint .GLFW_CONTEXT_VERSION_MINOR (.inl 3),
    .glfwWindowHint .GLFW_OPENGL_PROFILE (.inr .GLFW_OPENGL_CORE_PROFILE),
    .glfwCreateWindow 800 600 "LearnOpenGL", .glfwMakeContextCurrent window,
    .gladLoadGLLoader, .glViewport 0 0 800 600, .glfwSetFramebufferSizeCallback window,
    .glCreateShader .GL_VERTEX_SHADER,
    .glShaderSource env.vertexShader HelloWindow.vertexShaderSource,
    .glCompileShader env.vertexShader,
    .glGetShaderiv env.vertexShader .GL_COMPILE_STATUS]
  ++ guarded env.vertexCompileStatus [.glGetShaderInfoLog env.vertexShader 512]
  ++ [.glCreateShader .GL_FRAGMENT_SHADER,
    .glShaderSource env.fragmentShader HelloWindow.fragmentShaderSource,
    .glCompileShader env.fragmentShader,
    .glCreateShader .GL_FRAGMENT_SHADER,
    .glShaderSource env.altFragmentShader HelloWindow.altFragmentShaderSource,
    .glCompileShader env.altFragmentShader,
    .glCreateProgram,
    .glAttachShader env.firstShaderProgram env.vertexShader,
    .glAttachShader env.firstShaderProgram env.fragmentShader,
    .glLinkProgram env.firstShaderProgram,
    .glCreateProgram,
    .glAttachShader env.secondShaderProgram env.vertexShader,
    .glAttachShader env.secondShaderProgram env.altFragmentShader,
    .glLinkProgram env.secondShaderProgram,
    .glDeleteShader env.vertexShader, .glDeleteShader env.fragmentShader,
    .glDeleteShader env.altFragmentShader,
    .glGenVertexArrays 2, .glGenBuffers 2,
    .glBindVertexArray (env.vaos 0), .glBindBuffer .GL_ARRAY_BUFFER (env.vbos 0),
    .glBufferData .GL_ARRAY_BUFFER (HelloWindow.first_triangle.length * sizeof_float)
      HelloWindow.first_triangle .GL_STATIC_DRAW,
    .glVertexAttribPointer 0 3 .GL_FLOAT false (3 * sizeof_float) 0,
    .glEnableVertexAttribArray 0,
    .glBindVertexArray (env.vaos 1), .glBindBuffer .GL_ARRAY_BUFFER (env.vbos 1),
    .glBufferData .GL_ARRAY_BUFFER (HelloWindow.second_triangle.length * sizeof_float)
      HelloWindow.second_triangle .GL_STATIC_DRAW,
    .glVertexAttribPointer 0 3 .GL_FLOAT false (3 * sizeof_float) 0,
    .glEnableVertexAttribArray 0,
    .glBindBuffer .GL_ARRAY_BUFFER 0, .glBindVertexArray 0]

/-- The calls `main` of `hellowindow.cpp` issues after its render loop. -/
def HelloWindow.cleanupCalls (env : HelloWindow.Env) : List Call :=
  [.glDeleteVertexArrays 2 [env.vaos 0, env.vaos 1], .glDeleteBuffers 2 [env.vbos 0, env.vbos 1],
    .glDeleteProgram env.firstShaderProgram, .glDeleteProgram env.secondShaderProgram,
    .glfwTerminate]

/-! ## Concrete inputs -/

/-- A driver that compiles and links everything: handles 1, 2, 3, every status
`GL_TRUE`, no diagnostics. -/
def goodReplies : ShaderReplies :=
  ⟨1, GL_TRUE, [], 2, GL_TRUE, [], 3, GL_TRUE, []⟩

/-- A driver that rejects both stages and the link; its diagnostics are the ASCII
chars of `error`, `error` and `link`. -/
def badReplies : ShaderReplies :=
  ⟨1, GL_FALSE, [101, 114, 114, 111, 114], 2, GL_FALSE, [101, 114, 114, 111, 114],
    3, GL_FALSE, [108, 105, 110, 107]⟩

/-- A diagnostic of ten chars, the UTF-8 encoding of five two-byte characters. -/
def tenBytes : CString :=
  [195, 169, 195, 169, 195, 169, 195, 169, 195, 169]

/-- A disk holding `vshader.vert` and nothing else. -/
def vertexOnly : FileSystem := fun path =>
  if path = "vshader.vert" then .readable "#version 330 core" true else .unopenable

/-- A disk holding both shader files. -/
def bothFiles : FileSystem := fun path =>
  if path = "vshader.vert" then .readable "#version 330 core" true
  else if path = "fshader.frag" then .readable "#version 330 core" true
  else .unopenable

/-- A run of `main.cpp` in which Escape is held down from the first frame on. -/
def escapeAtOnce : Main.Env where
  window := some 7
  gladLoaded := true
  files := bothFiles
  shader := goodReplies
  vao := 1
  vbo := 1
  offsetLocation := fun _ => 0
  frame := fun _ => ⟨true, [], false⟩

/-- A run of `hellowindow.cpp` in which Escape is held down from the first frame on. -/
def helloEscapeAtOnce : HelloWindow.Env where
  window := some 7
  gladLoaded := true
  vertexShader := 1
  vertexCompileStatus := GL_TRUE
  vertexInfoLog := []
  fragmentShader := 2
  altFragmentShader := 3
  firstShaderProgram := 4
  secondShaderProgram := 5
  vaos := fun i => 1 + i.val
  vbos := fun i => 1 + i.val
  frame := fun _ => ⟨true, [], false⟩

/-- A toy driver state for uniforms: the program in use and, per program and
location, the last value written. -/
structure UniformStore where
  current : Nat
  ints : Nat → Int → Int
  floats : Nat → Int → ℚ

/-- The toy driver: `glUseProgram` selects, `glUniform1i` and `glUniform1f` write to the
program in use unless the location is `-1`, every other call leaves the store alone. -/
def UniformStore.step (st : UniformStore) : Call → UniformStore
  | .glUseProgram program => { st with current := program }
  | .glUniform1i location v0 =>
    if location = -1 then st
    else { st with ints := fun p l => if p = st.current ∧ l = location then v0 else st.ints p l }
  | .glUniform1f location v0 =>
    if location = -1 then st
    else { st with floats := fun p l => if p = st.current ∧ l = location then v0 else st.floats p l }
  | _ => st

/-! ## Running statements -/

theorem Exec.run_pure {α : Type} (a : α) (w : World) :
    (Pure.pure a : Exec α) w = (.ok a, w) := rfl

theorem Exec.run_call_bind {β : Type} (c : Call) (f : Unit → Exec β) (w : World) :
    (call c >>= f) w = f () ⟨w.calls ++ [c], w.out, w.shouldClose⟩ := rfl

theorem Exec.run_callWith_bind {α β : Type} (c : Call) (r : α) (f : α → Exec β)
    (w : World) : (callWith c r >>= f) w = f r ⟨w.calls ++ [c], w.out, w.shouldClose⟩ := rfl

theorem Exec.run_cout_bind {β : Type} (cs : List Chunk) (f : Unit → Exec β)
    (w : World) : (cout cs >>= f) w = f () ⟨w.calls, w.out ++ cs, w.shouldClose⟩ := rfl

theorem Exec.run_throw_bind {α β : Type} (e : IosFailure) (f : α → Exec β)
    (w : World) : ((Exec.throw e : Exec α) >>= f) w = (.error e, w) := rfl

theorem Exec.run_pure_bind {α β : Type} (a : α) (f : α → Exec β) (w : World) :
    ((Pure.pure a : Exec α) >>= f) w = f a w := rfl

theorem Exec.run_bind {α β : Type} (x : Exec α) (f : α → Exec β) (w : World) :
    (x >>= f) w = (match x w with
      | (.ok a, w1) => f a w1
      | (.error e, w1) => (.error e, w1)) := rfl

theorem Exec.bind_assoc {α β γ : Type} (x : Exec α) (f : α → Exec β) (g : β → Exec γ) :
    ((x >>= f) >>= g) = (x >>= fun a => f a >>= g) := by
  funext w
  show Exec.bind (Exec.bind x f) g w = Exec.bind x (fun a => Exec.bind (f a) g) w
  unfold Exec.bind
  rcases x w with ⟨r, w1⟩
  cases r <;> rfl

theorem Exec.run_tryCatch_bind {α β : Type} (body : Exec α) (h : IosFailure → Exec α)
    (f : α → Exec β) (w : World) :
    (Exec.tryCatch body h >>= f) w = (match body w with
      | (.ok a, w1) => f a w1
      | (.error e, w1) => (h e >>= f) w1) := by
  show Exec.bind (Exec.tryCatch body h) f w = _
  unfold Exec.bind Exec.tryCatch
  rcases body w with ⟨r, w1⟩
  cases r <;> rfl

/-! ## The constructor in closed form -/

set_option maxHeartbeats 8000000 in
/-- One run of the constructor, started in any world: it completes normally with the
handle of `glCreateProgram`, having appended `ctorCalls` and `ctorOut`. -/
theorem Shader.ctor_run (fs : FileSystem) (gl : ShaderReplies) (vp fp : String) (w : World) :
    Shader.ctor fs gl vp fp w =
      (.ok ⟨gl.program⟩,
        ⟨w.calls ++ ctorCalls gl ((sources fs vp fp).getD ("", "")).1
            ((sources fs vp fp).getD ("", "")).2,
          w.out ++ ctorOut gl (sources fs vp fp).isNone, w.shouldClose⟩) := by
  unfold Shader.ctor
  simp only [glCreateShader, glShaderSource, glCompileShader, glGetShaderiv, glGetShaderInfoLog,
    glCreateProgram, glAttachShader, glLinkProgram, glGetProgramiv, glGetProgramInfoLog,
    glDeleteShader]
  by_cases h1 : gl.vertexCompileStatus = 0 <;>
  by_cases h2 : gl.fragmentCompileStatus = 0 <;>
  by_cases h3 : gl.linkStatus = 0 <;>
  rcases hv : fs vp with _ | ⟨tv, _ | _⟩ <;> rcases hf : fs fp with _ | ⟨tf, _ | _⟩ <;>
  simp only [sources, ctorCalls, ctorOut, guarded, ifstream.open, ifstream.close, ifstream.rdbuf,
    hv, hf, h1, h2, h3, if_true, if_false, Exec.run_tryCatch_bind, Exec.run_callWith_bind,
    Exec.run_call_bind, Exec.bind_assoc, Exec.run_cout_bind, Exec.run_pure, Exec.run_pure_bind,
    Exec.run_throw_bind, List.nil_append, List.append_nil, List.append_assoc,
    List.cons_append, Option.getD, Option.isNone, reduceIte, Bool.false_eq_true]

theorem Shader.trace_eq (fs : FileSystem) (gl : ShaderReplies) (vp fp : String) :
    Shader.trace fs gl vp fp = ctorCalls gl ((sources fs vp fp).getD ("", "")).1
      ((sources fs vp fp).getD ("", "")).2 := by
  unfold Shader.trace
  rw [Shader.ctor_run]
  simp [World.init]

theorem Shader.log_eq (fs : FileSystem) (gl : ShaderReplies) (vp fp : String) :
    Shader.log fs gl vp fp = ctorOut gl (sources fs vp fp).isNone := by
  unfold Shader.log
  rw [Shader.ctor_run]
  simp [World.init]

theorem sources_of_unopenable (fs : FileSystem) (vp fp : String) (h : fs fp = .unopenable) :
    sources fs vp fp = none := by
  unfold sources
  rw [h]
  cases fs vp <;> simp

theorem ctorCalls_count_createProgram (gl : ShaderReplies) (v f : String) :
    (ctorCalls gl v f).count .glCreateProgram = 1 := by
  simp only [ctorCalls, guarded]
  split_ifs <;> simp

theorem ctorCalls_no_deleteProgram (gl : ShaderReplies) (v f : String) (program : Nat) :
    .glDeleteProgram program ∉ ctorCalls gl v f := by
  simp only [ctorCalls, guarded]
  split_ifs <;> simp

/-- C1: construction never signals failure.  For every state of the two files, every
compile status of the two stages and every link status, the constructor completes
normally (no `std::ifstream::failure` leaves it), it calls `glCreateProgram` exactly
once, and the `ID` of the wrapper is the handle that call returned. -/
theorem Shader.ctor_completes (fs : FileSystem) (gl : ShaderReplies) (vp fp : String) :
    (Shader.ctor fs gl vp fp World.init).1 = .ok ⟨gl.program⟩ ∧
    (Shader.trace fs gl vp fp).count .glCreateProgram = 1 := by
  refine ⟨by rw [Shader.ctor_run], ?_⟩
  rw [Shader.trace_eq]
  exact ctorCalls_count_createProgram _ _ _

/-- C2: for every combination of compile statuses the constructor issues exactly one
`glLinkProgram`, on its own program, and before it both stages were given their source
and submitted to `glCompileShader` and both stage handles were attached to the
program. -/
theorem Shader.ctor_links_once (fs : FileSystem) (gl : ShaderReplies) (vp fp : String) :
    ∃ before after : List Call,
      Shader.trace fs gl vp fp = before ++ [.glLinkProgram gl.program] ++ after ∧
      (∀ c ∈ before ++ after, c.isLink = false) ∧
      (∃ v f, .glShaderSource gl.vertex v ∈ before ∧ .glShaderSource gl.fragment f ∈ before) ∧
      .glCompileShader gl.vertex ∈ before ∧
      .glCompileShader gl.fragment ∈ before ∧
      .glAttachShader gl.program gl.vertex ∈ before ∧
      .glAttachShader gl.program gl.fragment ∈ before := by
  rw [Shader.trace_eq]
  refine ⟨[.glCreateShader .GL_VERTEX_SHADER,
        .glShaderSource gl.vertex ((sources fs vp fp).getD ("", "")).1,
        .glCompileShader gl.vertex, .glGetShaderiv gl.vertex .GL_COMPILE_STATUS]
      ++ guarded gl.vertexCompileStatus [.glGetShaderInfoLog gl.vertex 512]
      ++ [.glCreateShader .GL_FRAGMENT_SHADER,
        .glShaderSource gl.fragment ((sources fs vp fp).getD ("", "")).2,
        .glCompileShader gl.fragment, .glGetShaderiv gl.fragment .GL_COMPILE_STATUS]
      ++ guarded gl.fragmentCompileStatus [.glGetShaderInfoLog gl.fragment 512]
      ++ [.glCreateProgram, .glAttachShader gl.program gl.vertex,
        .glAttachShader gl.program gl.fragment],
    [.glGetProgramiv gl.program .GL_LINK_STATUS]
      ++ guarded gl.linkStatus [.glGetProgramInfoLog gl.program 512]
      ++ [.glDeleteShader gl.vertex, .glDeleteShader gl.fragment], ?_, ?_, ?_, ?_, ?_, ?_, ?_⟩
  · simp [ctorCalls]
  · simp only [guarded]
    split_ifs <;> simp [Call.isLink]
  · exact ⟨((sources fs vp fp).getD ("", "")).1, ((sources fs vp fp).getD ("", "")).2,
      by simp, by simp⟩
  · simp
  · simp
  · simp
  · simp

/-- C3: when the fragment-shader path cannot be opened, whatever the vertex path names,
the constructor completes normally, logs `ERROR::SHADER::FILE_NOT_SUCCESSFULLY_READ`
exactly once, and submits the empty text, and no other text, as the source of the
fragment stage. -/
theorem Shader.ctor_fragment_unopenable (fs : FileSystem) (gl : ShaderReplies) (vp fp : String)
    (h : fs fp = .unopenable) :
    (Shader.ctor fs gl vp fp World.init).1 = .ok ⟨gl.program⟩ ∧
    (Shader.log fs gl vp fp).count (.lit "ERROR::SHADER::FILE_NOT_SUCCESSFULLY_READ") = 1 ∧
    .glShaderSource gl.fragment "" ∈ Shader.trace fs gl vp fp ∧
    ∀ text, .glShaderSource gl.fragment text ∈ Shader.trace fs gl vp fp → text = "" := by
  refine ⟨by rw [Shader.ctor_run], ?_, ?_, ?_⟩
  · rw [Shader.log_eq, sources_of_unopenable fs vp fp h]
    simp only [ctorOut, guarded, Option.isNone, ↓reduceIte]
    split_ifs <;> simp
  · rw [Shader.trace_eq, sources_of_unopenable fs vp fp h]
    simp [ctorCalls]
  · intro text
    rw [Shader.trace_eq, sources_of_unopenable fs vp fp h]
    simp only [ctorCalls, guarded]
    split_ifs <;> simp <;> rintro (⟨_, h⟩ | h) <;> exact h

/-- C3 at a concrete input: a disk without `fshader.frag` and a driver that rejects
everything. -/
theorem Shader.ctor_fragment_unopenable_witness :
    (Shader.ctor vertexOnly badReplies "vshader.vert" "fshader.frag" World.init).1
      = .ok ⟨badReplies.program⟩ ∧
    (Shader.log vertexOnly badReplies "vshader.vert" "fshader.frag").count
      (.lit "ERROR::SHADER::FILE_NOT_SUCCESSFULLY_READ") = 1 ∧
    .glShaderSource badReplies.fragment "" ∈
      Shader.trace vertexOnly badReplies "vshader.vert" "fshader.frag" ∧
    ∀ text, .glShaderSource badReplies.fragment text ∈
      Shader.trace vertexOnly badReplies "vshader.vert" "fshader.frag" → text = "" :=
  Shader.ctor_fragment_unopenable vertexOnly badReplies "vshader.vert" "fshader.frag" (by decide)

/-- C4 fails as stated: with `vshader.vert` read in full and `fshader.frag` missing,
the text of the vertex file is never submitted to the driver. -/
theorem Shader.ctor_keeps_vertex_text_counterexample :
    vertexOnly "vshader.vert" = .readable "#version 330 core" true ∧
    vertexOnly "fshader.frag" = .unopenable ∧
    Call.glShaderSource goodReplies.vertex "#version 330 core" ∉
      Shader.trace vertexOnly goodReplies "vshader.vert" "fshader.frag" := by
  refine ⟨by decide, by decide, ?_⟩
  rw [Shader.trace_eq, sources_of_unopenable _ _ _ (by decide)]
  simp [ctorCalls, guarded, goodReplies, GL_TRUE]

/-- C4 as amended: when the vertex file is read in full and the fragment file cannot be
opened, the text of the vertex file is discarded; the two `glShaderSource` calls of the
constructor submit the empty text for the vertex stage and for the fragment stage. -/
theorem Shader.ctor_discards_vertex_text (fs : FileSystem) (gl : ShaderReplies) (vp fp : String)
    (text : String) (_hv : fs vp = .readable text true) (hf : fs fp = .unopenable) :
    (Shader.trace fs gl vp fp).filter Call.isShaderSource =
      [.glShaderSource gl.vertex "", .glShaderSource gl.fragment ""] := by
  rw [Shader.trace_eq, sources_of_unopenable fs vp fp hf]
  simp only [ctorCalls, guarded]
  split_ifs <;> simp [Call.isShaderSource]

/-- C4 as amended, at the input of the counterexample. -/
theorem Shader.ctor_discards_vertex_text_witness :
    (Shader.trace vertexOnly goodReplies "vshader.vert" "fshader.frag").filter
      Call.isShaderSource =
      [.glShaderSource goodReplies.vertex "", .glShaderSource goodReplies.fragment ""] :=
  Shader.ctor_discards_vertex_text vertexOnly goodReplies "vshader.vert" "fshader.frag"
    "#version 330 core" (by decide) (by decide)

theorem infoLogBuffer_length (maxLength : Nat) (log : CString) :
    (infoLogBuffer maxLength log).length ≤ maxLength - 1 := by
  unfold infoLogBuffer
  exact Nat.le_trans (List.takeWhile_sublist _).length_le (List.length_take_le _ _)

theorem infoLogBuffer_append (maxLength : Nat) (log : CString) :
    ∃ rest : CString, log = infoLogBuffer maxLength log ++ rest := by
  refine ⟨(log.take (maxLength - 1)).dropWhile (fun c => decide (c ≠ 0))
    ++ log.drop (maxLength - 1), ?_⟩
  unfold infoLogBuffer
  rw [← List.append_assoc, List.takeWhile_append_dropWhile, List.take_append_drop]

theorem infoLogBuffer_of_no_nul (maxLength : Nat) (log : CString) (h : (0 : Fin 256) ∉ log) :
    infoLogBuffer maxLength log = log.take (maxLength - 1) := by
  unfold infoLogBuffer
  rw [List.takeWhile_eq_self_iff]
  intro c hc
  have hmem : c ∈ log := List.mem_of_mem_take hc
  simp only [decide_eq_true_eq]
  intro h0
  exact h (h0 ▸ hmem)

/-- C5: each of the three failure lines is logged if and only if the driver reports
the matching status as `GL_FALSE`; it is logged at most once and is then immediately
followed by what the 512-char `infolog` buffer holds of the driver's diagnostic for
that object and by `std::endl`.  Whatever the length of the diagnostic, the buffer
holds an initial segment of it of at most 512 chars; for a diagnostic without an inner
NUL that segment is its first 511 chars, so a diagnostic of at most 511 chars is
logged whole. -/
theorem Shader.ctor_diagnostics (fs : FileSystem) (gl : ShaderReplies) (vp fp : String) :
    (.lit "ERROR::SHADER::VERTEX::COMPILATION_FAILED\n" ∈ Shader.log fs gl vp fp ↔
      gl.vertexCompileStatus = GL_FALSE) ∧
    (.lit "ERROR::SHADER::FRAGMENT::COMPILATION_FAILED\n" ∈ Shader.log fs gl vp fp ↔
      gl.fragmentCompileStatus = GL_FALSE) ∧
    (.lit "ERROR::SHADER::PROGRAM::LINKING_FAILED\n" ∈ Shader.log fs gl vp fp ↔
      gl.linkStatus = GL_FALSE) ∧
    ((Shader.log fs gl vp fp).count (.lit "ERROR::SHADER::VERTEX::COMPILATION_FAILED\n") ≤ 1 ∧
      (gl.vertexCompileStatus = GL_FALSE →
        [.lit "ERROR::SHADER::VERTEX::COMPILATION_FAILED\n",
          .str (infoLogBuffer 512 gl.vertexInfoLog), .endl] <:+: Shader.log fs gl vp fp)) ∧
    ((Shader.log fs gl vp fp).count (.lit "ERROR::SHADER::FRAGMENT::COMPILATION_FAILED\n") ≤ 1 ∧
      (gl.fragmentCompileStatus = GL_FALSE →
        [.lit "ERROR::SHADER::FRAGMENT::COMPILATION_FAILED\n",
          .str (infoLogBuffer 512 gl.fragmentInfoLog), .endl] <:+: Shader.log fs gl vp fp)) ∧
    ((Shader.log fs gl vp fp).count (.lit "ERROR::SHADER::PROGRAM::LINKING_FAILED\n") ≤ 1 ∧
      (gl.linkStatus = GL_FALSE →
        [.lit "ERROR::SHADER::PROGRAM::LINKING_FAILED\n",
          .str (infoLogBuffer 512 gl.programInfoLog), .endl] <:+: Shader.log fs gl vp fp)) ∧
    ∀ log : CString, (infoLogBuffer 512 log).length ≤ 512 ∧
      (∃ rest : CString, log = infoLogBuffer 512 log ++ rest) ∧
      ((0 : Fin 256) ∉ log → infoLogBuffer 512 log = log.take 511) ∧
      ((0 : Fin 256) ∉ log → log.length ≤ 511 → infoLogBuffer 512 log = log) := by
  rw [Shader.log_eq]
  refine ⟨?_, ?_, ?_, ⟨?_, ?_⟩, ⟨?_, ?_⟩, ⟨?_, ?_⟩, ?_⟩
  · simp only [ctorOut, guarded, GL_FALSE]
    split_ifs <;> simp [*]
  · simp only [ctorOut, guarded, GL_FALSE]
    split_ifs <;> simp [*]
  · simp only [ctorOut, guarded, GL_FALSE]
    split_ifs <;> simp [*]
  · simp only [ctorOut, guarded]
    split_ifs <;> simp
  · intro h
    refine ⟨if (sources fs vp fp).isNone then
        [.lit "ERROR::SHADER::FILE_NOT_SUCCESSFULLY_READ", .endl] else [],
      guarded gl.fragmentCompileStatus [.lit "ERROR::SHADER::FRAGMENT::COMPILATION_FAILED\n",
        .str (infoLogBuffer 512 gl.fragmentInfoLog), .endl]
      ++ guarded gl.linkStatus [.lit "ERROR::SHADER::PROGRAM::LINKING_FAILED\n",
        .str (infoLogBuffer 512 gl.programInfoLog), .endl], ?_⟩
    simp only [ctorOut, guarded, show gl.vertexCompileStatus = 0 from h, if_true,
      List.append_assoc]
  · simp only [ctorOut, guarded]
    split_ifs <;> simp
  · intro h
    refine ⟨(if (sources fs vp fp).isNone then
        [.lit "ERROR::SHADER::FILE_NOT_SUCCESSFULLY_READ", .endl] else [])
      ++ guarded gl.vertexCompileStatus [.lit "ERROR::SHADER::VERTEX::COMPILATION_FAILED\n",
        .str (infoLogBuffer 512 gl.vertexInfoLog), .endl],
      guarded gl.linkStatus [.lit "ERROR::SHADER::PROGRAM::LINKING_FAILED\n",
        .str (infoLogBuffer 512 gl.programInfoLog), .endl], ?_⟩
    simp only [ctorOut, guarded, show gl.fragmentCompileStatus = 0 from h, if_true,
      List.append_assoc]
  · simp only [ctorOut, guarded]
    split_ifs <;> simp
  · intro h
    refine ⟨(if (sources fs vp fp).isNone then
        [.lit "ERROR::SHADER::FILE_NOT_SUCCESSFULLY_READ", .endl] else [])
      ++ guarded gl.vertexCompileStatus [.lit "ERROR::SHADER::VERTEX::COMPILATION_FAILED\n",
        .str (infoLogBuffer 512 gl.vertexInfoLog), .endl]
      ++ guarded gl.fragmentCompileStatus [.lit "ERROR::SHADER::FRAGMENT::COMPILATION_FAILED\n",
        .str (infoLogBuffer 512 gl.fragmentInfoLog), .endl], [], ?_⟩
    simp only [ctorOut, guarded, show gl.linkStatus = 0 from h, if_true,
      List.append_assoc, List.append_nil]
  · intro log
    refine ⟨Nat.le_trans (infoLogBuffer_length 512 log) (by decide),
      infoLogBuffer_append 512 log, infoLogBuffer_of_no_nul 512 log, ?_⟩
    intro h0 hlen
    rw [infoLogBuffer_of_no_nul 512 log h0]
    exact List.take_of_length_le hlen

/-- C5 at a concrete input: a driver that rejects the vertex stage with the five-char
diagnostic `error`, which is logged whole. -/
theorem Shader.ctor_diagnostics_witness :
    badReplies.vertexCompileStatus = GL_FALSE ∧
    (0 : Fin 256) ∉ badReplies.vertexInfoLog ∧
    badReplies.vertexInfoLog.length ≤ 511 ∧
    [.lit "ERROR::SHADER::VERTEX::COMPILATION_FAILED\n",
      .str (infoLogBuffer 512 badReplies.vertexInfoLog), .endl] <:+:
      Shader.log bothFiles badReplies "vshader.vert" "fshader.frag" ∧
    infoLogBuffer 512 badReplies.vertexInfoLog = badReplies.vertexInfoLog :=
  ⟨rfl, by decide, by decide,
    (Shader.ctor_diagnostics bothFiles badReplies "vshader.vert" "fshader.frag").2.2.2.1.2 rfl,
    ((Shader.ctor_diagnostics bothFiles badReplies "vshader.vert"
      "fshader.frag").2.2.2.2.2.2 badReplies.vertexInfoLog).2.2.2 (by decide) (by decide)⟩

/-- The cut is made in chars, not in characters: a buffer of 8 keeps the first 7 of the
ten chars of `tenBytes`, splitting its fourth two-byte character. -/
theorem infoLogBuffer_tenBytes :
    infoLogBuffer 8 tenBytes = [195, 169, 195, 169, 195, 169, 195] := by
  decide

/-- C6: for every outcome of compilation and linking, the release calls the
constructor makes are exactly `glDeleteShader(vertex)` and `glDeleteShader(fragment)`,
once each, both after the one `glLinkProgram` call; it never calls
`glDeleteProgram`. -/
theorem Shader.ctor_releases_stages (fs : FileSystem) (gl : ShaderReplies) (vp fp : String) :
    (∃ before after : List Call,
      Shader.trace fs gl vp fp = before ++ [.glLinkProgram gl.program] ++ after ∧
      (∀ c ∈ before, c.isLink = false ∧ c.isDelete = false) ∧
      after.filter Call.isDelete = [.glDeleteShader gl.vertex, .glDeleteShader gl.fragment]) ∧
    ∀ program, .glDeleteProgram program ∉ Shader.trace fs gl vp fp := by
  rw [Shader.trace_eq]
  refine ⟨⟨[.glCreateShader .GL_VERTEX_SHADER,
        .glShaderSource gl.vertex ((sources fs vp fp).getD ("", "")).1,
        .glCompileShader gl.vertex, .glGetShaderiv gl.vertex .GL_COMPILE_STATUS]
      ++ guarded gl.vertexCompileStatus [.glGetShaderInfoLog gl.vertex 512]
      ++ [.glCreateShader .GL_FRAGMENT_SHADER,
        .glShaderSource gl.fragment ((sources fs vp fp).getD ("", "")).2,
        .glCompileShader gl.fragment, .glGetShaderiv gl.fragment .GL_COMPILE_STATUS]
      ++ guarded gl.fragmentCompileStatus [.glGetShaderInfoLog gl.fragment 512]
      ++ [.glCreateProgram, .glAttachShader gl.program gl.vertex,
        .glAttachShader gl.program gl.fragment],
    [.glGetProgramiv gl.program .GL_LINK_STATUS]
      ++ guarded gl.linkStatus [.glGetProgramInfoLog gl.program 512]
      ++ [.glDeleteShader gl.vertex, .glDeleteShader gl.fragment], ?_, ?_, ?_⟩, ?_⟩
  · simp [ctorCalls]
  · simp only [guarded]
    split_ifs <;> simp [Call.isLink, Call.isDelete]
  · simp only [guarded]
    split_ifs <;> simp [Call.isDelete]
  · intro program
    exact ctorCalls_no_deleteProgram _ _ _ _

/-- C7: `setBool(name, true)` behaves as `setInt(name, 1)` and `setBool(name, false)` as
`setInt(name, 0)`: the same calls, result and state.  The calls are
`glGetUniformLocation(ID, name)` on the program of the wrapper followed by
`glUniform1i` at the location the driver returned. -/
theorem Shader.setBool_as_setInt (self : Shader) (name : String) (reply : Int) (w : World) :
    self.setBool name true reply w = self.setInt name 1 reply w ∧
    self.setBool name false reply w = self.setInt name 0 reply w ∧
    (∀ value : Int, (self.setInt name value reply w).2.calls =
      w.calls ++ [.glGetUniformLocation self.ID name, .glUniform1i reply value]) := by
  refine ⟨rfl, rfl, ?_⟩
  intro value
  simp [Shader.setInt, glGetUniformLocation, glUniform1i, call, Exec.run_callWith_bind]

/-- C8: setting a uniform whose name the driver resolves to the invalid location `-1`
is a no-op.  The three setters complete normally, and for every driver whose state is
left alone by a location query and by a `glUniform1i` or `glUniform1f` write to location
`-1`, the driver state after the calls of the setter is the state before them: no
uniform value and no program selection changed. -/
theorem Shader.set_unknown_uniform {σ : Type} (step : σ → Call → σ)
    (hquery : ∀ st program name, step st (.glGetUniformLocation program name) = st)
    (hint : ∀ st v0, step st (.glUniform1i (-1) v0) = st)
    (hfloat : ∀ st v0, step st (.glUniform1f (-1) v0) = st)
    (self : Shader) (name : String) (b : Bool) (i : Int) (x : ℚ) (st : σ) :
    (self.setBool name b (-1) World.init).1 = .ok () ∧
    (self.setInt name i (-1) World.init).1 = .ok () ∧
    (self.setFloat name x (-1) World.init).1 = .ok () ∧
    (self.setBool name b (-1) World.init).2.calls.foldl step st = st ∧
    (self.setInt name i (-1) World.init).2.calls.foldl step st = st ∧
    (self.setFloat name x (-1) World.init).2.calls.foldl step st = st := by
  refine ⟨rfl, rfl, rfl, ?_, ?_, ?_⟩
  · simp [Shader.setBool, glGetUniformLocation, glUniform1i, call, World.init, hquery, hint,
      Exec.run_callWith_bind]
  · simp [Shader.setInt, glGetUniformLocation, glUniform1i, call, World.init, hquery, hint,
      Exec.run_callWith_bind]
  · simp [Shader.setFloat, glGetUniformLocation, glUniform1f, call, World.init, hquery, hfloat,
      Exec.run_callWith_bind]

theorem UniformStore.step_query (st : UniformStore) (program : Nat) (name : String) :
    st.step (.glGetUniformLocation program name) = st := rfl

theorem UniformStore.step_int (st : UniformStore) (v0 : Int) :
    st.step (.glUniform1i (-1) v0) = st := by
  simp [UniformStore.step]

theorem UniformStore.step_float (st : UniformStore) (v0 : ℚ) :
    st.step (.glUniform1f (-1) v0) = st := by
  simp [UniformStore.step]

/-- C8 at a concrete input: the toy driver `UniformStore.step`, program 3 and the name
`offset`. -/
theorem Shader.set_unknown_uniform_witness :
    (Shader.setBool ⟨3⟩ "offset" true (-1) World.init).1 = .ok () ∧
    (Shader.setInt ⟨3⟩ "offset" 1 (-1) World.init).1 = .ok () ∧
    (Shader.setFloat ⟨3⟩ "offset" 0.3 (-1) World.init).1 = .ok () ∧
    (Shader.setBool ⟨3⟩ "offset" true (-1) World.init).2.calls.foldl UniformStore.step
      ⟨3, fun _ _ => 0, fun _ _ => 0⟩ = ⟨3, fun _ _ => 0, fun _ _ => 0⟩ ∧
    (Shader.setInt ⟨3⟩ "offset" 1 (-1) World.init).2.calls.foldl UniformStore.step
      ⟨3, fun _ _ => 0, fun _ _ => 0⟩ = ⟨3, fun _ _ => 0, fun _ _ => 0⟩ ∧
    (Shader.setFloat ⟨3⟩ "offset" 0.3 (-1) World.init).2.calls.foldl UniformStore.step
      ⟨3, fun _ _ => 0, fun _ _ => 0⟩ = ⟨3, fun _ _ => 0, fun _ _ => 0⟩ :=
  Shader.set_unknown_uniform UniformStore.step UniformStore.step_query UniformStore.step_int
    UniformStore.step_float ⟨3⟩ "offset" true 1 0.3 ⟨3, fun _ _ => 0, fun _ _ => 0⟩

/-! ## Render loops -/

theorem Exec.emits_pure {α : Type} (P : Call → Prop) (a : α) :
    Exec.Emits P (Pure.pure a : Exec α) := by
  intro w
  exact ⟨a, [], w.shouldClose, by simp [Exec.run_pure], by simp⟩

theorem Exec.emits_bind {α β : Type} (P : Call → Prop) (x : Exec α) (f : α → Exec β)
    (hx : Exec.Emits P x) (hf : ∀ a, Exec.Emits P (f a)) : Exec.Emits P (x >>= f) := by
  intro w
  obtain ⟨a, l1, flag1, h1, hP1⟩ := hx w
  obtain ⟨b, l2, flag2, h2, hP2⟩ := hf a ⟨w.calls ++ l1, w.out, flag1⟩
  refine ⟨b, l1 ++ l2, flag2, ?_, ?_⟩
  · rw [Exec.run_bind, h1]
    simp only [h2, List.append_assoc]
  · intro c hc
    rcases List.mem_append.mp hc with h | h
    · exact hP1 c h
    · exact hP2 c h

theorem Exec.emits_call (P : Call → Prop) (c : Call) (h : P c) : Exec.Emits P (call c) := by
  intro w
  exact ⟨(), [c], w.shouldClose, rfl, by simpa using h⟩

theorem Exec.emits_callWith {α : Type} (P : Call → Prop) (c : Call) (reply : α) (h : P c) :
    Exec.Emits P (callWith c reply) := by
  intro w
  exact ⟨reply, [c], w.shouldClose, rfl, by simpa using h⟩

theorem emits_glfwWindowShouldClose (P : Call → Prop) (window : Nat)
    (h : P (.glfwWindowShouldClose window)) : Exec.Emits P (glfwWindowShouldClose window) := by
  intro w
  exact ⟨w.shouldClose, [.glfwWindowShouldClose window], w.shouldClose, rfl, by simpa using h⟩

theorem emits_glfwSetWindowShouldClose (P : Call → Prop) (window : Nat) (value : Bool)
    (h : P (.glfwSetWindowShouldClose window value)) :
    Exec.Emits P (glfwSetWindowShouldClose window value) := by
  intro w
  exact ⟨(), [.glfwSetWindowShouldClose window value], value, rfl, by simpa using h⟩

theorem emits_processInput (window : Nat) (escape : Bool) :
    Exec.Emits (fun c => c.isFrameCall = true) (processInput window escape) := by
  unfold processInput glfwGetKey
  refine Exec.emits_bind _ _ _ (Exec.emits_callWith _ _ _ rfl) fun pressed => ?_
  cases pressed
  · exact Exec.emits_pure _ _
  · exact emits_glfwSetWindowShouldClose _ _ _ rfl

theorem emits_dispatchResizes (window : Nat) (events : List (Int × Int)) :
    Exec.Emits (fun c => c.isFrameCall = true) (dispatchResizes window events) := by
  induction events with
  | nil => exact Exec.emits_pure _ _
  | cons e rest ih =>
    obtain ⟨width, height⟩ := e
    unfold dispatchResizes
    exact Exec.emits_bind _ _ _ (Exec.emits_call _ _ rfl) fun _ => ih

theorem emits_glfwPollEvents (window : Nat) (events : Frame) :
    Exec.Emits (fun c => c.isFrameCall = true) (glfwPollEvents window events) := by
  unfold glfwPollEvents
  refine Exec.emits_bind _ _ _ (Exec.emits_call _ _ rfl) fun _ => ?_
  refine Exec.emits_bind _ _ _ (emits_dispatchResizes _ _) fun _ => ?_
  cases events.closeRequested
  · exact Exec.emits_pure _ _
  · intro w
    exact ⟨(), [], true, by simp, by simp⟩

theorem Main.emits_renderLoop (env : Main.Env) (window : Nat) (shader : Shader) (vao : Nat) :
    ∀ fuel i, Exec.Emits (fun c => c.isFrameCall = true)
      (Main.renderLoop env window shader vao fuel i)
  | 0, _ => Exec.emits_pure _ _
  | fuel + 1, i => by
    unfold Main.renderLoop
    refine Exec.emits_bind _ _ _ (emits_glfwWindowShouldClose _ _ rfl) fun close => ?_
    cases close
    · refine Exec.emits_bind _ _ _ (emits_processInput _ _) fun _ => ?_
      refine Exec.emits_bind _ _ _ (Exec.emits_call _ _ rfl) fun _ => ?_
      refine Exec.emits_bind _ _ _ (Exec.emits_call _ _ rfl) fun _ => ?_
      refine Exec.emits_bind _ _ _ (Exec.emits_call _ _ rfl) fun _ => ?_
      refine Exec.emits_bind _ _ _ ?_ fun _ => ?_
      · exact Exec.emits_bind _ _ _ (Exec.emits_callWith _ _ _ rfl) fun _ =>
          Exec.emits_call _ _ rfl
      refine Exec.emits_bind _ _ _ (Exec.emits_call _ _ rfl) fun _ => ?_
      refine Exec.emits_bind _ _ _ (Exec.emits_call _ _ rfl) fun _ => ?_
      refine Exec.emits_bind _ _ _ (emits_glfwPollEvents _ _) fun _ => ?_
      refine Exec.emits_bind _ _ _ (Exec.emits_call _ _ rfl) fun _ => ?_
      exact Main.emits_renderLoop env window shader vao fuel (i + 1)
    · exact Exec.emits_pure _ _

theorem Shader.ctor_run_bind {β : Type} (fs : FileSystem) (gl : ShaderReplies) (vp fp : String)
    (f : Shader → Exec β) (w : World) :
    (Shader.ctor fs gl vp fp >>= f) w =
      f ⟨gl.program⟩ ⟨w.calls ++ ctorCalls gl ((sources fs vp fp).getD ("", "")).1
            ((sources fs vp fp).getD ("", "")).2,
          w.out ++ ctorOut gl (sources fs vp fp).isNone, w.shouldClose⟩ := by
  rw [Exec.run_bind, Shader.ctor_run]

theorem run_glfwCreateWindow_bind {β : Type} (width height : Int) (title : String)
    (reply : Option Nat) (f : Option Nat → Exec β) (w : World) :
    (glfwCreateWindow width height title reply >>= f) w =
      f reply ⟨w.calls ++ [.glfwCreateWindow width height title], w.out, false⟩ := rfl

/-- One run of `main` of `main.cpp` with a window and a loaded driver: the setup calls,
then frame calls, then, when the loop was left, the cleanup calls and exit code 0. -/
theorem Main.main_run (env : Main.Env) (fuel : Nat) (window : Nat)
    (hw : env.window = some window) (hg : env.gladLoaded = true) :
    ∃ (exited : Bool) (frames : List Call) (flag : Bool),
      (∀ c ∈ frames, c.isFrameCall = true) ∧
      Main.main env fuel World.init =
        (.ok (if exited then some 0 else none),
          ⟨Main.setupCalls env window ++ frames
              ++ (if exited then Main.cleanupCalls env else []),
            Shader.log env.files env.shader "vshader.vert" "fshader.frag", flag⟩) := by
  obtain ⟨exited, frames, flag, hrun, hframes⟩ :=
    Main.emits_renderLoop env window ⟨env.shader.program⟩ env.vao fuel 0
      ⟨Main.setupCalls env window,
        Shader.log env.files env.shader "vshader.vert" "fshader.frag", false⟩
  refine ⟨exited, frames, flag, hframes, ?_⟩
  unfold Main.main
  simp only [glfwInit, glfwWindowHint, glfwTerminate, glfwMakeContextCurrent, gladLoadGLLoader,
    glfwSetFramebufferSizeCallback, glViewport, glGenVertexArrays, glGenBuffers,
    glBindVertexArray, glBindBuffer, glBufferData, glVertexAttribPointer,
    glEnableVertexAttribArray, glDeleteVertexArrays, glDeleteBuffers,
    Exec.run_call_bind, Exec.run_callWith_bind, run_glfwCreateWindow_bind,
    Shader.ctor_run_bind, hw, hg, Bool.not_true, Bool.false_eq_true, if_false, World.init,
    List.nil_append]
  rw [Exec.run_bind]
  simp only [Main.setupCalls, Shader.trace_eq, Shader.log_eq, List.append_assoc,
    List.cons_append, List.nil_append] at hrun
  simp only [List.append_assoc, List.cons_append, List.nil_append]
  rw [hrun]
  cases exited
  · simp [Main.setupCalls, Shader.trace_eq, Shader.log_eq, Exec.run_pure]
  · simp [Main.setupCalls, Main.cleanupCalls, Shader.trace_eq, Shader.log_eq, Exec.run_call_bind,
      Exec.run_pure]

theorem Main.main_no_window (env : Main.Env) (fuel : Nat) (hw : env.window = none) :
    (Main.main env fuel World.init).1 = .ok (some (-1)) := by
  unfold Main.main
  simp only [glfwInit, glfwWindowHint, glfwTerminate, Exec.run_call_bind,
    run_glfwCreateWindow_bind, Exec.run_cout_bind, hw]
  rfl

theorem Main.main_no_loader (env : Main.Env) (fuel : Nat) (window : Nat)
    (hw : env.window = some window) (hg : env.gladLoaded = false) :
    (Main.main env fuel World.init).1 = .ok (some (-1)) := by
  unfold Main.main
  simp only [glfwInit, glfwWindowHint, glfwMakeContextCurrent, gladLoadGLLoader,
    Exec.run_call_bind, Exec.run_callWith_bind, run_glfwCreateWindow_bind, Exec.run_cout_bind,
    hw, hg, Bool.not_false, if_true]
  rfl

theorem Call.not_delete_of_frame (c : Call) (h : c.isFrameCall = true) : c.isDelete = false := by
  cases c <;> first | rfl | simp [Call.isFrameCall] at h

/-- C9, for `main.cpp`: whenever `main` returns 0 it has created a shader program
(through the `Shader` constructor) and has deleted its vertex array and its buffer, but
it has made no `glDeleteProgram` call at all: the program held by the `Shader` wrapper
is never released. -/
theorem Main.main_leaks_program (env : Main.Env) (fuel : Nat)
    (h : (Main.main env fuel World.init).1 = .ok (some 0)) :
    .glCreateProgram ∈ (Main.main env fuel World.init).2.calls ∧
    .glDeleteVertexArrays 1 [env.vao] ∈ (Main.main env fuel World.init).2.calls ∧
    .glDeleteBuffers 1 [env.vbo] ∈ (Main.main env fuel World.init).2.calls ∧
    ∀ program, .glDeleteProgram program ∉ (Main.main env fuel World.init).2.calls := by
  rcases hw : env.window with _ | window
  · rw [Main.main_no_window env fuel hw] at h
    simp at h
  · rcases hg : env.gladLoaded with _ | _
    · rw [Main.main_no_loader env fuel window hw hg] at h
      simp at h
    · obtain ⟨exited, frames, flag, hframes, hrun⟩ := Main.main_run env fuel window hw hg
      rw [hrun] at h ⊢
      cases exited
      · simp at h
      · simp only [if_true]
        refine ⟨?_, ?_, ?_, ?_⟩
        · have : Call.glCreateProgram ∈ Shader.trace env.files env.shader "vshader.vert"
              "fshader.frag" := by
            rw [Shader.trace_eq]
            exact List.count_pos_iff.mp (by rw [ctorCalls_count_createProgram]; exact Nat.one_pos)
          simp [Main.setupCalls, this]
        · simp [Main.cleanupCalls]
        · simp [Main.cleanupCalls]
        · intro program hmem
          simp only [Main.setupCalls, Main.cleanupCalls, List.mem_append, List.mem_cons,
            List.mem_singleton, reduceCtorEq, or_false, false_or, List.not_mem_nil] at hmem
          rcases hmem with hmem | hmem
          · rw [Shader.trace_eq] at hmem
            exact ctorCalls_no_deleteProgram _ _ _ _ hmem
          · have := Call.not_delete_of_frame _ (hframes _ hmem)
            simp [Call.isDelete] at this

theorem run_glfwWindowShouldClose_bind {β : Type} (window : Nat) (f : Bool → Exec β)
    (w : World) :
    (glfwWindowShouldClose window >>= f) w =
      f w.shouldClose ⟨w.calls ++ [.glfwWindowShouldClose window], w.out, w.shouldClose⟩ := rfl

theorem run_glfwSetWindowShouldClose_bind {β : Type} (window : Nat) (value : Bool)
    (f : Unit → Exec β) (w : World) :
    (glfwSetWindowShouldClose window value >>= f) w =
      f () ⟨w.calls ++ [.glfwSetWindowShouldClose window value], w.out, value⟩ := rfl

theorem Main.escapeAtOnce_exit : (Main.main escapeAtOnce 2 World.init).1 = .ok (some 0) := by
  unfold Main.main
  simp only [glfwInit, glfwWindowHint, glfwTerminate, glfwMakeContextCurrent, gladLoadGLLoader,
    glfwSetFramebufferSizeCallback, glViewport, glGenVertexArrays, glGenBuffers,
    glBindVertexArray, glBindBuffer, glBufferData, glVertexAttribPointer,
    glEnableVertexAttribArray, glDeleteVertexArrays, glDeleteBuffers, glClearColor, glClear,
    glDrawArrays, glfwSwapBuffers, glfwGetKey, glUseProgram, glGetUniformLocation, glUniform1f,
    Shader.use, Shader.setFloat, processInput, glfwPollEvents, dispatchResizes,
    Main.renderLoop, escapeAtOnce,
    Exec.run_call_bind, Exec.run_callWith_bind, run_glfwCreateWindow_bind,
    run_glfwWindowShouldClose_bind, run_glfwSetWindowShouldClose_bind, Exec.bind_assoc,
    Exec.run_pure_bind, Exec.run_pure,
    Shader.ctor_run_bind, Bool.not_true, Bool.false_eq_true, if_false, if_true, World.init,
    List.nil_append]

/-- C9 at a concrete input: Escape is held down from the first frame, so `main`
returns 0 in its second pass through the loop condition. -/
theorem Main.main_leaks_program_witness :
    .glCreateProgram ∈ (Main.main escapeAtOnce 2 World.init).2.calls ∧
    .glDeleteVertexArrays 1 [escapeAtOnce.vao] ∈ (Main.main escapeAtOnce 2 World.init).2.calls ∧
    .glDeleteBuffers 1 [escapeAtOnce.vbo] ∈ (Main.main escapeAtOnce 2 World.init).2.calls ∧
    ∀ program, .glDeleteProgram program ∉ (Main.main escapeAtOnce 2 World.init).2.calls :=
  Main.main_leaks_program escapeAtOnce 2 Main.escapeAtOnce_exit

theorem HelloWindow.hello_emits_renderLoop (env : HelloWindow.Env)
    (window firstShaderProgram secondShaderProgram : Nat) (vaos : Fin 2 → Nat) :
    ∀ fuel i, Exec.Emits (fun c => c.isFrameCall = true)
      (HelloWindow.renderLoop env window firstShaderProgram secondShaderProgram vaos fuel i)
  | 0, _ => Exec.emits_pure _ _
  | fuel + 1, i => by
    unfold HelloWindow.renderLoop
    refine Exec.emits_bind _ _ _ (emits_glfwWindowShouldClose _ _ rfl) fun close => ?_
    cases close
    · refine Exec.emits_bind _ _ _ (emits_processInput _ _) fun _ => ?_
      refine Exec.emits_bind _ _ _ (Exec.emits_call _ _ rfl) fun _ => ?_
      refine Exec.emits_bind _ _ _ (Exec.emits_call _ _ rfl) fun _ => ?_
      refine Exec.emits_bind _ _ _ (Exec.emits_call _ _ rfl) fun _ => ?_
      refine Exec.emits_bind _ _ _ (Exec.emits_call _ _ rfl) fun _ => ?_
      refine Exec.emits_bind _ _ _ (Exec.emits_call _ _ rfl) fun _ => ?_
      refine Exec.emits_bind _ _ _ (Exec.emits_call _ _ rfl) fun _ => ?_
      refine Exec.emits_bind _ _ _ (Exec.emits_call _ _ rfl) fun _ => ?_
      refine Exec.emits_bind _ _ _ (Exec.emits_call _ _ rfl) fun _ => ?_
      refine Exec.emits_bind _ _ _ (emits_glfwPollEvents _ _) fun _ => ?_
      refine Exec.emits_bind _ _ _ (Exec.emits_call _ _ rfl) fun _ => ?_
      exact HelloWindow.hello_emits_renderLoop env window firstShaderProgram secondShaderProgram vaos
        fuel (i + 1)
    · exact Exec.emits_pure _ _

/-- One run of `main` of `hellowindow.cpp` with a window and a loaded driver: the setup
calls, then frame calls, then, when the loop was left, the cleanup calls and exit
code 0. -/
theorem HelloWindow.hello_main_run (env : HelloWindow.Env) (fuel : Nat) (window : Nat)
    (hw : env.window = some window) (hg : env.gladLoaded = true) :
    ∃ (exited : Bool) (frames : List Call),
      (∀ c ∈ frames, c.isFrameCall = true) ∧
      (HelloWindow.main env fuel World.init).1 = .ok (if exited then some 0 else none) ∧
      (HelloWindow.main env fuel World.init).2.calls =
        HelloWindow.setupCalls env window ++ frames
          ++ (if exited then HelloWindow.cleanupCalls env else []) := by
  obtain ⟨exited, frames, flag, hrun, hframes⟩ :=
    HelloWindow.hello_emits_renderLoop env window env.firstShaderProgram env.secondShaderProgram
      env.vaos fuel 0
      ⟨HelloWindow.setupCalls env window,
        guarded env.vertexCompileStatus [.lit "ERROR::SHADER::VERTEX::COMPILATION_FAILED\n",
          .str (infoLogBuffer 512 env.vertexInfoLog), .endl], false⟩
  refine ⟨exited, frames, hframes, ?_⟩
  unfold HelloWindow.main
  simp only [glfwInit, glfwWindowHint, glfwTerminate, glfwMakeContextCurrent, gladLoadGLLoader,
    glfwSetFramebufferSizeCallback, glViewport, glGenVertexArrays, glGenBuffers,
    glBindVertexArray, glBindBuffer, glBufferData, glVertexAttribPointer,
    glEnableVertexAttribArray, glDeleteVertexArrays, glDeleteBuffers, glDeleteProgram,
    glCreateShader, glShaderSource, glCompileShader, glGetShaderiv, glGetShaderInfoLog,
    glCreateProgram, glAttachShader, glLinkProgram, glDeleteShader,
    Exec.run_call_bind, Exec.run_callWith_bind, run_glfwCreateWindow_bind,
    hw, hg, Bool.not_true, Bool.false_eq_true, if_false, World.init,
    List.nil_append]
  by_cases hs : env.vertexCompileStatus = 0
  · simp only [hs, if_true, Exec.bind_assoc, Exec.run_callWith_bind, Exec.run_cout_bind,
      Exec.run_call_bind, List.nil_append]
    rw [Exec.run_bind]
    simp only [HelloWindow.setupCalls, guarded, hs, if_true, List.append_assoc,
      List.cons_append, List.nil_append, List.singleton_append] at hrun
    simp only [List.append_assoc, List.cons_append, List.nil_append]
    rw [hrun]
    cases exited
    · simp [HelloWindow.setupCalls, guarded, hs, Exec.run_pure]
    · simp [HelloWindow.setupCalls, HelloWindow.cleanupCalls, guarded, hs,
        Exec.run_call_bind, List.ofFn_succ, Exec.run_pure]
  · simp only [hs, if_false, Exec.bind_assoc, Exec.run_callWith_bind, Exec.run_cout_bind,
      Exec.run_call_bind, Exec.run_pure_bind, List.nil_append]
    rw [Exec.run_bind]
    simp only [HelloWindow.setupCalls, guarded, hs, if_false, List.append_assoc,
      List.cons_append, List.nil_append, List.append_nil] at hrun
    simp only [List.append_assoc, List.cons_append, List.nil_append]
    rw [hrun]
    cases exited
    · simp [HelloWindow.setupCalls, guarded, hs, Exec.run_pure]
    · simp [HelloWindow.setupCalls, HelloWindow.cleanupCalls, guarded, hs,
        Exec.run_call_bind, List.ofFn_succ, Exec.run_pure]

theorem HelloWindow.hello_main_no_window (env : HelloWindow.Env) (fuel : Nat)
    (hw : env.window = none) :
    (HelloWindow.main env fuel World.init).1 = .ok (some (-1)) := by
  unfold HelloWindow.main
  simp only [glfwInit, glfwWindowHint, glfwTerminate, Exec.run_call_bind,
    run_glfwCreateWindow_bind, Exec.run_cout_bind, hw]
  rfl

theorem HelloWindow.hello_main_no_loader (env : HelloWindow.Env) (fuel : Nat) (window : Nat)
    (hw : env.window = some window) (hg : env.gladLoaded = false) :
    (HelloWindow.main env fuel World.init).1 = .ok (some (-1)) := by
  unfold HelloWindow.main
  simp only [glfwInit, glfwWindowHint, glfwMakeContextCurrent, gladLoadGLLoader,
    Exec.run_call_bind, Exec.run_callWith_bind, run_glfwCreateWindow_bind, Exec.run_cout_bind,
    hw, hg, Bool.not_false, if_true]
  rfl

/-- The sibling entry point releases its programs: whenever `main` of `hellowindow.cpp`
returns 0, its trace ends with the deletion of both vertex arrays, both buffers and
both shader programs, followed by `glfwTerminate`, and the three stage handles were
deleted before the render loop. -/
theorem HelloWindow.hello_main_releases_all (env : HelloWindow.Env) (fuel : Nat)
    (h : (HelloWindow.main env fuel World.init).1 = .ok (some 0)) :
    ∃ before : List Call,
      (HelloWindow.main env fuel World.init).2.calls =
        before ++ [.glDeleteVertexArrays 2 [env.vaos 0, env.vaos 1],
          .glDeleteBuffers 2 [env.vbos 0, env.vbos 1],
          .glDeleteProgram env.firstShaderProgram, .glDeleteProgram env.secondShaderProgram,
          .glfwTerminate] ∧
      .glDeleteShader env.vertexShader ∈ before ∧
      .glDeleteShader env.fragmentShader ∈ before ∧
      .glDeleteShader env.altFragmentShader ∈ before := by
  rcases hw : env.window with _ | window
  · rw [HelloWindow.hello_main_no_window env fuel hw] at h
    simp at h
  · rcases hg : env.gladLoaded with _ | _
    · rw [HelloWindow.hello_main_no_loader env fuel window hw hg] at h
      simp at h
    · obtain ⟨exited, frames, -, hexit, hcalls⟩ := HelloWindow.hello_main_run env fuel window hw hg
      rw [hexit] at h
      cases exited
      · simp at h
      · refine ⟨HelloWindow.setupCalls env window ++ frames, ?_, ?_, ?_, ?_⟩
        · rw [hcalls]
          simp [HelloWindow.cleanupCalls]
        · simp [HelloWindow.setupCalls]
        · simp [HelloWindow.setupCalls]
        · simp [HelloWindow.setupCalls]

theorem HelloWindow.helloEscapeAtOnce_exit :
    (HelloWindow.main helloEscapeAtOnce 2 World.init).1 = .ok (some 0) := by
  unfold HelloWindow.main
  simp only [glfwInit, glfwWindowHint, glfwTerminate, glfwMakeContextCurrent, gladLoadGLLoader,
    glfwSetFramebufferSizeCallback, glViewport, glGenVertexArrays, glGenBuffers,
    glBindVertexArray, glBindBuffer, glBufferData, glVertexAttribPointer,
    glEnableVertexAttribArray, glDeleteVertexArrays, glDeleteBuffers, glDeleteProgram,
    glCreateShader, glShaderSource, glCompileShader, glGetShaderiv, glGetShaderInfoLog,
    glCreateProgram, glAttachShader, glLinkProgram, glDeleteShader, glClearColor, glClear,
    glDrawArrays, glfwSwapBuffers, glfwGetKey, glUseProgram, processInput, glfwPollEvents,
    dispatchResizes, HelloWindow.renderLoop, helloEscapeAtOnce, GL_TRUE,
    Exec.run_call_bind, Exec.run_callWith_bind, run_glfwCreateWindow_bind,
    run_glfwWindowShouldClose_bind, run_glfwSetWindowShouldClose_bind, Exec.bind_assoc,
    Exec.run_pure_bind, Exec.run_pure, one_ne_zero,
    Bool.not_true, Bool.false_eq_true, if_false, if_true, World.init, List.nil_append]

/-- The sibling entry point at a concrete input: Escape is held down from the first
frame. -/
theorem HelloWindow.hello_main_releases_all_witness :
    ∃ before : List Call,
      (HelloWindow.main helloEscapeAtOnce 2 World.init).2.calls =
        before ++ [.glDeleteVertexArrays 2 [helloEscapeAtOnce.vaos 0, helloEscapeAtOnce.vaos 1],
          .glDeleteBuffers 2 [helloEscapeAtOnce.vbos 0, helloEscapeAtOnce.vbos 1],
          .glDeleteProgram helloEscapeAtOnce.firstShaderProgram,
          .glDeleteProgram helloEscapeAtOnce.secondShaderProgram,
          .glfwTerminate] ∧
      .glDeleteShader helloEscapeAtOnce.vertexShader ∈ before ∧
      .glDeleteShader helloEscapeAtOnce.fragmentShader ∈ before ∧
      .glDeleteShader helloEscapeAtOnce.altFragmentShader ∈ before :=
  HelloWindow.hello_main_releases_all helloEscapeAtOnce 2 HelloWindow.helloEscapeAtOnce_exit

end HelloOpenGL
